import Mathlib

/-!
Shallow embedding of `src/NeoPixel/NeoPixel.ino` (Drone Illumination Project).

Modelling conventions:
* Digital levels are `Bool`: `true` is HIGH, `false` is LOW (the button is
  wired active-low with a pull-up, so a press reads `false`).
* Colors are packed 24-bit naturals, exactly as `Adafruit_NeoPixel::Color`
  packs `(r << 16) | (g << 8) | b` from `uint8_t` channels; since the three
  byte fields are disjoint the bitwise-or equals the sum used here.
* The pixel sink (`Adafruit_NeoPixel strip`) is modelled by `Strip`: a fixed
  pixel count, the pixel buffer as a function, the brightness scalar, plus
  observation logs — the list of indices passed to `setPixelColor` (the sink
  ignores an out-of-range index, as the library does), the number of `show`
  (flush) calls, and the number of `setBrightness` calls.
* `delay` calls only burn time and are not modelled; `Serial` prints are
  diagnostics with no effect on state and are not modelled.
* `EffectBreathe` computes its intensity with floating-point `sin`, which has
  no exact shallow embedding; the truncated-to-integer intensity curve is kept
  as an explicit function parameter `ifn`, and every theorem quantifies over
  it, so nothing proved depends on its value.
* C integer widths are explicit: `uint8_t` arithmetic is `% 256`, the
  `uint16_t` breathe counter wraps `% 65536`, channel packing is `% 256` per
  channel, and `(x) & 255` is `% 256`.
-/

namespace NeoPixel

/-- Number of NeoPixels to control (`NUM_PIXELS`). -/
def NUM_PIXELS : Nat := 12

/-- Configured global brightness (`PIXEL_BRIGHTNESS`). -/
def PIXEL_BRIGHTNESS : Nat := 80

/-- Packed color constant `COLOR_BLACK` (0x000000). -/
def COLOR_BLACK : Nat := 0x000000

/-- Packed color constant `COLOR_RED` (0xFF0000). -/
def COLOR_RED : Nat := 0xFF0000

/-- Enumerator `EFFECT_BREATHE` of the modes-of-operation enum. -/
def EFFECT_BREATHE : Nat := 0

/-- Enumerator `EFFECT_RAINBOW` of the modes-of-operation enum. -/
def EFFECT_RAINBOW : Nat := 1

/-- Enumerator `NUM_EFFECTS`: one past the last declared effect. -/
def NUM_EFFECTS : Nat := 2

/-- Pack three channels into a 24-bit color, as `strip.Color(r, g, b)` does
with `uint8_t` arguments (each channel is truncated to a byte). -/
def Color (r g b : Nat) : Nat := (r % 256) * 65536 + (g % 256) * 256 + (b % 256)

/-- Red channel of a packed color. -/
def redCh (c : Nat) : Nat := c / 65536 % 256

/-- Green channel of a packed color. -/
def greenCh (c : Nat) : Nat := c / 256 % 256

/-- Blue channel of a packed color. -/
def blueCh (c : Nat) : Nat := c % 256

/-- The color wheel `Wheel(byte wheelPos)`: positions 0-255 sweep through the
hue circle in three bands of 85, one channel held at 0 in each band. -/
def Wheel (wheelPos : Nat) : Nat :=
  if wheelPos < 85 then
    Color (wheelPos * 3) (255 - wheelPos * 3) 0
  else if wheelPos < 170 then
    let w := wheelPos - 85
    Color (255 - w * 3) 0 (w * 3)
  else
    let w := wheelPos - 170
    Color 0 (w * 3) (255 - w * 3)

/-- The pixel sink: pixel count and buffer of the `Adafruit_NeoPixel` strip,
its brightness scalar, and observation logs (indices passed to
`setPixelColor`, number of `show` flushes, number of `setBrightness` calls). -/
structure Strip where
  numPixels : Nat
  pixels : Nat → Nat
  brightness : Nat
  writes : List Nat
  flushes : Nat
  brightnessWrites : Nat

/-- `strip.setPixelColor(i, c)`: records the index passed to the sink and, when
the index is in range, stores the low 24 bits of the color (the library
silently ignores an out-of-range index). -/
def Strip.setPixelColor (i c : Nat) (st : Strip) : Strip :=
  { st with
    pixels := if i < st.numPixels then Function.update st.pixels i (c % 2 ^ 24) else st.pixels,
    writes := st.writes ++ [i] }

/-- `strip.show()`: flush the buffer to the hardware (counted, no other state). -/
def Strip.show' (st : Strip) : Strip := { st with flushes := st.flushes + 1 }

/-- `strip.setBrightness(b)`: store the byte-truncated brightness scalar and
record that a brightness write happened. -/
def Strip.setBrightness (b : Nat) (st : Strip) : Strip :=
  { st with brightness := b % 256, brightnessWrites := st.brightnessWrites + 1 }

/-- The program's global state: the strip plus the globals `g_buttonState`,
`g_effect`, `g_effectPrev`, `g_breatheCounter`, `g_rainbowCounter`. -/
structure State where
  strip : Strip
  buttonState : Bool
  effect : Nat
  effectPrev : Nat
  breatheCounter : Nat
  rainbowCounter : Nat

/-- `EffectBreatheInit()`: zero the breathe counter, black out all pixels,
light pixel 1 red as a mode marker, flush (the 500 ms pause is untimed). -/
def EffectBreatheInit (s : State) : State :=
  let s := { s with breatheCounter := 0 }
  let st := (List.range NUM_PIXELS).foldl (fun st i => st.setPixelColor i COLOR_BLACK) s.strip
  let st := st.setPixelColor 1 COLOR_RED
  { s with strip := st.show' }

/-- `EffectBreathe(color)`: set the global brightness from the sinusoidal
intensity of the phase counter (`ifn` stands for the truncated floating-point
curve `255/2 * (1 + sin(0.016 * counter))`), fill every pixel with the fixed
color, flush, and increment the `uint16_t` phase counter. -/
def EffectBreathe (ifn : Nat → Nat) (color : Nat) (s : State) : State :=
  let st := s.strip.setBrightness (ifn s.breatheCounter)
  let st := (List.range NUM_PIXELS).foldl (fun st i => st.setPixelColor i color) st
  { s with strip := st.show', breatheCounter := (s.breatheCounter + 1) % 65536 }

/-- `EffectColorWipe(color, wait)`: fill pixels one at a time, flushing after
each (blocking multi-frame effect; the per-pixel delay is untimed). -/
def EffectColorWipe (color wait : Nat) (s : State) : State :=
  let st := (List.range s.strip.numPixels).foldl
    (fun st i => (st.setPixelColor i color).show') s.strip
  { s with strip := st }

/-- `EffectRainbowInit()`: zero the hue counter, black out all pixels, light
pixels 1 and 2 red as a mode marker, flush. -/
def EffectRainbowInit (s : State) : State :=
  let s := { s with rainbowCounter := 0 }
  let st := (List.range NUM_PIXELS).foldl (fun st i => st.setPixelColor i COLOR_BLACK) s.strip
  let st := st.setPixelColor 1 COLOR_RED
  let st := st.setPixelColor 2 COLOR_RED
  { s with strip := st.show' }

/-- `EffectRainbow()`: set every pixel `i` to `Wheel((i + g_rainbowCounter) & 255)`,
flush, and increment the `uint8_t` hue counter. -/
def EffectRainbow (s : State) : State :=
  let st := (List.range s.strip.numPixels).foldl
    (fun st i => st.setPixelColor i (Wheel ((i + s.rainbowCounter) % 256))) s.strip
  { s with strip := st.show', rainbowCounter := (s.rainbowCounter + 1) % 256 }

/-- `EffectRainbowCycle(wait)`: for `j` in `0..256*5-1`, set each pixel to a
spatially spread wheel position plus `j`, flush, pause (untimed). -/
def EffectRainbowCycle (wait : Nat) (s : State) : State :=
  let st := (List.range (256 * 5)).foldl
    (fun st j =>
      ((List.range st.numPixels).foldl
        (fun st i => st.setPixelColor i (Wheel ((i * 256 / st.numPixels + j) % 256))) st).show')
    s.strip
  { s with strip := st }

/-- Iterates of the C loop `for (i = 0; i < n; i = i + 3)`. -/
def everyThird (n : Nat) : List Nat := (List.range n).filter (fun i => i % 3 = 0)

/-- `EffectTheaterChase(c, wait)`: 10 chase cycles; in each, for offset `q` in
0..2, light every third pixel at `i + q`, flush, pause (untimed), then clear
those pixels. -/
def EffectTheaterChase (c wait : Nat) (s : State) : State :=
  let st := (List.range 10).foldl
    (fun st _ =>
      (List.range 3).foldl
        (fun st q =>
          let st := (everyThird st.numPixels).foldl
            (fun st i => st.setPixelColor (i + q) c) st
          let st := st.show'
          (everyThird st.numPixels).foldl
            (fun st i => st.setPixelColor (i + q) 0) st)
        st)
    s.strip
  { s with strip := st }

/-- `EffectTheaterChaseRainbow(wait)`: like the theater chase, but over all 256
wheel positions `j`, lighting pixel `i + q` with `Wheel((i + j) % 255)`. -/
def EffectTheaterChaseRainbow (wait : Nat) (s : State) : State :=
  let st := (List.range 256).foldl
    (fun st j =>
      (List.range 3).foldl
        (fun st q =>
          let st := (everyThird st.numPixels).foldl
            (fun st i => st.setPixelColor (i + q) (Wheel ((i + j) % 255))) st
          let st := st.show'
          (everyThird st.numPixels).foldl
            (fun st i => st.setPixelColor (i + q) 0) st)
        st)
    s.strip
  { s with strip := st }

/-- Mode advance on a press edge: `g_effect++; if (g_effect == NUM_EFFECTS)
g_effect = 0;`. -/
def advanceEffect (e : Nat) : Nat :=
  let e := e + 1
  if e = NUM_EFFECTS then 0 else e

/-- The debounce edge test of `loop()`:
`(val == val2) && (val != g_buttonState) && (val == LOW)`. -/
def debounceEdge (stable val val2 : Bool) : Bool :=
  (val == val2) && (val != stable) && (val == false)

/-- Observable events of one tick: which init hooks and which step hooks ran,
in order. -/
inductive Event where
  | init (e : Nat)
  | step (e : Nat)
deriving DecidableEq

/-- Observation record of one `loop()` iteration: whether a press edge was
detected, and the hook events in the order they ran. -/
structure TickOut where
  edge : Bool
  events : List Event
deriving DecidableEq

/-- One iteration of `loop()`, given the two button samples `val`, `val2` read
20 ms apart: debounce and (on a press edge) advance the mode; save `val` as the
stable level; on a mode change run that mode's init hook and update
`g_effectPrev`; then run the current mode's step hook, the `default` case
resetting an unrecognized mode to 0. -/
def tick (ifn : Nat → Nat) (s : State) (val val2 : Bool) : State × TickOut :=
  let edge := debounceEdge s.buttonState val val2
  let s1 := if edge then { s with effect := advanceEffect s.effect } else s
  let s2 := { s1 with buttonState := val }
  let p3 :=
    if s2.effectPrev ≠ s2.effect then
      if s2.effect = EFFECT_BREATHE then
        ({ EffectBreatheInit s2 with effectPrev := s2.effect }, [Event.init EFFECT_BREATHE])
      else if s2.effect = EFFECT_RAINBOW then
        ({ EffectRainbowInit s2 with effectPrev := s2.effect }, [Event.init EFFECT_RAINBOW])
      else
        ({ s2 with effectPrev := s2.effect }, ([] : List Event))
    else (s2, ([] : List Event))
  let s3 := p3.1
  let p4 :=
    if s3.effect = EFFECT_BREATHE then
      (EffectBreathe ifn COLOR_RED s3, [Event.step EFFECT_BREATHE])
    else if s3.effect = EFFECT_RAINBOW then
      (EffectRainbow s3, [Event.step EFFECT_RAINBOW])
    else
      ({ s3 with effect := 0 }, ([] : List Event))
  (p4.1, { edge := edge, events := p3.2 ++ p4.2 })

/-- The freshly constructed strip: `NUM_PIXELS` pixels, all off, library
default brightness (full). -/
def stripBegin : Strip :=
  { numPixels := NUM_PIXELS, pixels := fun _ => 0, brightness := 255,
    writes := [], flushes := 0, brightnessWrites := 0 }

/-- `setup()`: initialize the strip, set the configured brightness, record the
initial button reading, flush all-off pixels; the globals start as declared
(`g_effect = EFFECT_RAINBOW`, `g_effectPrev = NUM_EFFECTS`, counters zero). -/
def setup (btn : Bool) : State :=
  let st := stripBegin.setBrightness PIXEL_BRIGHTNESS
  { strip := st.show', buttonState := btn, effect := EFFECT_RAINBOW,
    effectPrev := NUM_EFFECTS, breatheCounter := 0, rainbowCounter := 0 }

/-- Run a list of ticks from a state, collecting each tick's post-state and
observation record in order. -/
def runStates (ifn : Nat → Nat) (s : State) : List (Bool × Bool) → List (State × TickOut)
  | [] => []
  | v :: rest => tick ifn s v.1 v.2 :: runStates ifn (tick ifn s v.1 v.2).1 rest

/-- Checks, along a trace, that every tick emitted exactly one step event for
its current effect, preceded by exactly one init event exactly when the effect
differs from the previous tick's effect (threaded as `prev`). -/
def eventsOk (prev : Nat) : List (State × TickOut) → Bool
  | [] => true
  | x :: rest =>
    (decide (x.2.events =
      (if prev = x.1.effect then [] else [Event.init x.1.effect]) ++ [Event.step x.1.effect]))
    && eventsOk x.1.effect rest

/-- How many channels of a packed color are zero. -/
def zeroChannels (c : Nat) : Nat :=
  (if redCh c = 0 then 1 else 0) + (if greenCh c = 0 then 1 else 0) +
    (if blueCh c = 0 then 1 else 0)

/-- All indices ever passed to the pixel sink are below `n`. -/
def writesBounded (n : Nat) (st : Strip) : Prop := ∀ i ∈ st.writes, i < n

instance (n : Nat) (st : Strip) : Decidable (writesBounded n st) :=
  inferInstanceAs (Decidable (∀ i ∈ st.writes, i < n))

/-- A concrete intensity curve used to instantiate witnesses (the theorems
quantify over the curve, so any function works here). -/
def ifn0 : Nat → Nat := fun _ => 0

/-! ### Basic projection lemmas for the pixel sink -/

@[simp] lemma setPixelColor_numPixels (st : Strip) (i c : Nat) :
    (st.setPixelColor i c).numPixels = st.numPixels := rfl

@[simp] lemma setPixelColor_flushes (st : Strip) (i c : Nat) :
    (st.setPixelColor i c).flushes = st.flushes := rfl

@[simp] lemma setPixelColor_brightness (st : Strip) (i c : Nat) :
    (st.setPixelColor i c).brightness = st.brightness := rfl

@[simp] lemma setPixelColor_brightnessWrites (st : Strip) (i c : Nat) :
    (st.setPixelColor i c).brightnessWrites = st.brightnessWrites := rfl

@[simp] lemma setPixelColor_writes (st : Strip) (i c : Nat) :
    (st.setPixelColor i c).writes = st.writes ++ [i] := rfl

@[simp] lemma show'_numPixels (st : Strip) : st.show'.numPixels = st.numPixels := rfl

@[simp] lemma show'_pixels (st : Strip) : st.show'.pixels = st.pixels := rfl

@[simp] lemma show'_flushes (st : Strip) : st.show'.flushes = st.flushes + 1 := rfl

@[simp] lemma show'_brightness (st : Strip) : st.show'.brightness = st.brightness := rfl

@[simp] lemma show'_brightnessWrites (st : Strip) :
    st.show'.brightnessWrites = st.brightnessWrites := rfl

@[simp] lemma show'_writes (st : Strip) : st.show'.writes = st.writes := rfl

@[simp] lemma setBrightness_numPixels (st : Strip) (b : Nat) :
    (st.setBrightness b).numPixels = st.numPixels := rfl

@[simp] lemma setBrightness_flushes (st : Strip) (b : Nat) :
    (st.setBrightness b).flushes = st.flushes := rfl

@[simp] lemma setBrightness_writes (st : Strip) (b : Nat) :
    (st.setBrightness b).writes = st.writes := rfl

@[simp] lemma setBrightness_brightness (st : Strip) (b : Nat) :
    (st.setBrightness b).brightness = b % 256 := rfl

@[simp] lemma setBrightness_brightnessWrites (st : Strip) (b : Nat) :
    (st.setBrightness b).brightnessWrites = st.brightnessWrites + 1 := rfl

/-! ### Projections of the effect functions on the non-strip globals -/

@[simp] lemma EffectBreatheInit_effect (s : State) : (EffectBreatheInit s).effect = s.effect := by unfold EffectBreatheInit; rfl

@[simp] lemma EffectBreatheInit_effectPrev (s : State) :
    (EffectBreatheInit s).effectPrev = s.effectPrev := by unfold EffectBreatheInit; rfl

@[simp] lemma EffectBreatheInit_buttonState (s : State) :
    (EffectBreatheInit s).buttonState = s.buttonState := by unfold EffectBreatheInit; rfl

@[simp] lemma EffectRainbowInit_effect (s : State) : (EffectRainbowInit s).effect = s.effect := by unfold EffectRainbowInit; rfl

@[simp] lemma EffectRainbowInit_effectPrev (s : State) :
    (EffectRainbowInit s).effectPrev = s.effectPrev := by unfold EffectRainbowInit; rfl

@[simp] lemma EffectRainbowInit_buttonState (s : State) :
    (EffectRainbowInit s).buttonState = s.buttonState := by unfold EffectRainbowInit; rfl

@[simp] lemma EffectBreathe_effect (ifn : Nat → Nat) (c : Nat) (s : State) :
    (EffectBreathe ifn c s).effect = s.effect := by unfold EffectBreathe; rfl

@[simp] lemma EffectBreathe_effectPrev (ifn : Nat → Nat) (c : Nat) (s : State) :
    (EffectBreathe ifn c s).effectPrev = s.effectPrev := by unfold EffectBreathe; rfl

@[simp] lemma EffectBreathe_buttonState (ifn : Nat → Nat) (c : Nat) (s : State) :
    (EffectBreathe ifn c s).buttonState = s.buttonState := by unfold EffectBreathe; rfl

@[simp] lemma EffectRainbow_effect (s : State) : (EffectRainbow s).effect = s.effect := by unfold EffectRainbow; rfl

@[simp] lemma EffectRainbow_effectPrev (s : State) :
    (EffectRainbow s).effectPrev = s.effectPrev := by unfold EffectRainbow; rfl

@[simp] lemma EffectRainbow_buttonState (s : State) :
    (EffectRainbow s).buttonState = s.buttonState := by unfold EffectRainbow; rfl

/-! ### Generic lemmas about folds over the pixel sink -/

/-- A strip projection untouched by every step of a fold is untouched by the
whole fold. -/
lemma foldl_proj {α β : Type} (proj : Strip → β) (f : Strip → α → Strip)
    (hf : ∀ st a, proj (f st a) = proj st) :
    ∀ (l : List α) (st : Strip), proj (l.foldl f st) = proj st := by
  intro l
  induction l with
  | nil => intro st; rfl
  | cons a l ih => intro st; rw [List.foldl_cons, ih, hf]

/-- A fold whose every step performs exactly one flush performs one flush per
list element. -/
lemma foldl_flushes_count {α : Type} (f : Strip → α → Strip)
    (hf : ∀ st a, (f st a).flushes = st.flushes + 1) :
    ∀ (l : List α) (st : Strip), (l.foldl f st).flushes = st.flushes + l.length := by
  intro l
  induction l with
  | nil => intro st; simp
  | cons a l ih => intro st; rw [List.foldl_cons, ih, hf]; simp; omega

/-- A predicate preserved by every step of a fold (for elements of the folded
list) is preserved by the whole fold. -/
lemma foldl_pres {α : Type} (P : Strip → Prop) (f : Strip → α → Strip) :
    ∀ (l : List α), (∀ st a, a ∈ l → P st → P (f st a)) → ∀ st, P st → P (l.foldl f st) := by
  intro l
  induction l with
  | nil => intro _ st h; exact h
  | cons a l ih =>
    intro hstep st h
    rw [List.foldl_cons]
    exact ih (fun st' b hb h' => hstep st' b (List.mem_cons_of_mem a hb) h')
      (f st a) (hstep st a (List.mem_cons_self a l) h)

/-- The pixel buffer after the canonical per-pixel fill loop
`for (i = 0; i < n; i++) setPixelColor(i, g(i))`. -/
lemma foldl_setPixel_pixels (g : Nat → Nat) :
    ∀ (n : Nat) (st : Strip),
      ((List.range n).foldl (fun st i => st.setPixelColor i (g i)) st).pixels
        = fun i => if i < n ∧ i < st.numPixels then g i % 2 ^ 24 else st.pixels i := by
  intro n
  induction n with
  | zero => intro st; funext i; simp
  | succ n ih =>
    intro st
    rw [List.range_succ, List.foldl_append, List.foldl_cons, List.foldl_nil]
    have hnp : ((List.range n).foldl (fun st i => st.setPixelColor i (g i)) st).numPixels
        = st.numPixels :=
      foldl_proj Strip.numPixels (fun st i => st.setPixelColor i (g i)) (fun _ _ => rfl) _ _
    have hpx := ih st
    generalize hFeq : (List.range n).foldl (fun st i => st.setPixelColor i (g i)) st = F
      at hnp hpx ⊢
    funext i
    simp only [Strip.setPixelColor]
    rw [hnp, hpx]
    by_cases hlt : n < st.numPixels
    · rw [if_pos hlt]
      by_cases hin : i = n
      · subst hin
        rw [Function.update_same]
        simp [hlt]
      · rw [Function.update_noteq hin]
        split_ifs <;> first | rfl | omega
    · rw [if_neg hlt]
      split_ifs <;> first | rfl | omega

/-! ### Bounds on packed colors -/

/-- A packed color is a 24-bit value. -/
lemma Color_lt (r g b : Nat) : Color r g b < 2 ^ 24 := by
  unfold Color
  have h1 : r % 256 < 256 := Nat.mod_lt _ (by norm_num)
  have h2 : g % 256 < 256 := Nat.mod_lt _ (by norm_num)
  have h3 : b % 256 < 256 := Nat.mod_lt _ (by norm_num)
  omega

/-- The wheel always yields a 24-bit value. -/
lemma Wheel_lt (p : Nat) : Wheel p < 2 ^ 24 := by
  unfold Wheel
  split
  · exact Color_lt _ _ _
  · split
    · exact Color_lt _ _ _
    · exact Color_lt _ _ _

/-! ### Lemmas about a single `loop()` iteration -/

/-- The edge flag reported by a tick is exactly the debounce test on the
recorded stable level and the two fresh samples. -/
lemma tick_edge (ifn : Nat → Nat) (s : State) (v v2 : Bool) :
    (tick ifn s v v2).2.edge = debounceEdge s.buttonState v v2 := by
  unfold tick
  rfl

/-- After a tick, the recorded stable button level is the first of the two
samples (`g_buttonState = val` runs unconditionally). -/
lemma tick_buttonState (ifn : Nat → Nat) (s : State) (v v2 : Bool) :
    (tick ifn s v v2).1.buttonState = v := by
  unfold tick
  dsimp only
  repeat' split
  all_goals simp

/-- Advancing from a declared effect lands on a declared effect. -/
lemma advanceEffect_lt : ∀ e, e < NUM_EFFECTS → advanceEffect e < NUM_EFFECTS := by decide

/-- Master description of one tick from a state whose current effect is
declared: the post-advance effect `e` becomes both `g_effect` and
`g_effectPrev`, and the tick emits the step event for `e`, preceded by the
init event for `e` exactly when `g_effectPrev` differed from `e`. -/
lemma tick_spec (ifn : Nat → Nat) (s : State) (v v2 : Bool) (h : s.effect < NUM_EFFECTS) :
    (tick ifn s v v2).1.effect
        = (if debounceEdge s.buttonState v v2 then advanceEffect s.effect else s.effect)
    ∧ (tick ifn s v v2).1.effectPrev
        = (if debounceEdge s.buttonState v v2 then advanceEffect s.effect else s.effect)
    ∧ (tick ifn s v v2).2.events
        = (if s.effectPrev
              = (if debounceEdge s.buttonState v v2 then advanceEffect s.effect else s.effect)
           then []
           else [Event.init (if debounceEdge s.buttonState v v2 then advanceEffect s.effect
                             else s.effect)])
          ++ [Event.step (if debounceEdge s.buttonState v v2 then advanceEffect s.effect
                          else s.effect)] := by
  have h2 : s.effect < 2 := h
  rcases (by omega : s.effect = 0 ∨ s.effect = 1) with h0 | h1
  · cases hE : debounceEdge s.buttonState v v2
    · by_cases hp : s.effectPrev = 0
      · simp [tick, hE, hp, h0, EFFECT_BREATHE, EFFECT_RAINBOW]
      · simp [tick, hE, hp, h0, EFFECT_BREATHE, EFFECT_RAINBOW]
    · have hAdv : advanceEffect 0 = 1 := rfl
      by_cases hp : s.effectPrev = 1
      · simp [tick, hE, hAdv, hp, h0, EFFECT_BREATHE, EFFECT_RAINBOW]
      · simp [tick, hE, hAdv, hp, h0, EFFECT_BREATHE, EFFECT_RAINBOW]
  · cases hE : debounceEdge s.buttonState v v2
    · by_cases hp : s.effectPrev = 1
      · simp [tick, hE, hp, h1, EFFECT_BREATHE, EFFECT_RAINBOW]
      · simp [tick, hE, hp, h1, EFFECT_BREATHE, EFFECT_RAINBOW]
    · have hAdv : advanceEffect 1 = 0 := rfl
      by_cases hp : s.effectPrev = 0
      · simp [tick, hE, hAdv, hp, h1, EFFECT_BREATHE, EFFECT_RAINBOW]
      · simp [tick, hE, hAdv, hp, h1, EFFECT_BREATHE, EFFECT_RAINBOW]

/-! ### Invariant machinery for the write log and the brightness scalar -/

/-- Invariant carried through every pixel loop: the strip has 12 pixels and
every index passed to the sink so far was below 12. -/
def StripOk (st : Strip) : Prop := st.numPixels = 12 ∧ writesBounded 12 st

lemma StripOk_set (st : Strip) (i c : Nat) (hi : i < 12) (h : StripOk st) :
    StripOk (st.setPixelColor i c) := by
  refine ⟨h.1, ?_⟩
  intro j hj
  rw [setPixelColor_writes] at hj
  rcases List.mem_append.mp hj with hj | hj
  · exact h.2 j hj
  · rw [List.mem_singleton] at hj
    omega

lemma StripOk_show (st : Strip) (h : StripOk st) : StripOk st.show' :=
  ⟨h.1, fun i hi => h.2 i hi⟩

lemma StripOk_setBrightness (st : Strip) (b : Nat) (h : StripOk st) :
    StripOk (st.setBrightness b) :=
  ⟨h.1, fun i hi => h.2 i hi⟩

/-- The plain fill loop `for (i = 0; i < n; i++) setPixelColor(i, g(i))`
preserves the invariant when `n ≤ 12`. -/
lemma StripOk_fill (g : Nat → Nat) (n : Nat) (hn : n ≤ 12) (st : Strip) (h : StripOk st) :
    StripOk ((List.range n).foldl (fun st i => st.setPixelColor i (g i)) st) := by
  refine foldl_pres StripOk _ (List.range n) ?_ st h
  intro st' a ha h'
  exact StripOk_set st' a _ (by have := List.mem_range.mp ha; omega) h'

/-- Variant of `StripOk_fill` whose color may depend on the running strip
(used by the rainbow-cycle loop, whose color reads `strip.numPixels()`). -/
lemma StripOk_fill2 (g : Strip → Nat → Nat) (n : Nat) (hn : n ≤ 12) (st : Strip)
    (h : StripOk st) :
    StripOk ((List.range n).foldl (fun st i => st.setPixelColor i (g st i)) st) := by
  refine foldl_pres StripOk _ (List.range n) ?_ st h
  intro st' a ha h'
  exact StripOk_set st' a _ (by have := List.mem_range.mp ha; omega) h'

/-- The indices of the every-third loop for a 12-pixel strip. -/
lemma everyThird_twelve : everyThird 12 = [0, 3, 6, 9] := by decide

/-- One on-or-off half of a chase pass (indices `i + q`, `i` every third below
12, `q < 3`) preserves the invariant. -/
lemma StripOk_chasePass (g : Nat → Nat) (q n : Nat) (hq : q < 3) (hn : n = 12)
    (st : Strip) (h : StripOk st) :
    StripOk ((everyThird n).foldl (fun st i => st.setPixelColor (i + q) (g i)) st) := by
  refine foldl_pres StripOk _ (everyThird n) ?_ st h
  intro st' i hi h'
  rw [hn, everyThird_twelve] at hi
  have : i = 0 ∨ i = 3 ∨ i = 6 ∨ i = 9 := by simpa using hi
  exact StripOk_set st' (i + q) _ (by omega) h'

/-- Brightness scalar and brightness-write count, bundled so one fold lemma
covers both. -/
def brightPair (st : Strip) : Nat × Nat := (st.brightness, st.brightnessWrites)

lemma brightPair_fill (g : Nat → Nat) (l : List Nat) (st : Strip) :
    brightPair (l.foldl (fun st i => st.setPixelColor i (g i)) st) = brightPair st :=
  foldl_proj brightPair (fun st i => st.setPixelColor i (g i)) (fun _ _ => rfl) l st

lemma brightPair_fill2 (g : Strip → Nat → Nat) (l : List Nat) (st : Strip) :
    brightPair (l.foldl (fun st i => st.setPixelColor i (g st i)) st) = brightPair st :=
  foldl_proj brightPair (fun st i => st.setPixelColor i (g st i)) (fun _ _ => rfl) l st

lemma brightPair_chase (g : Nat → Nat) (q : Nat) (l : List Nat) (st : Strip) :
    brightPair (l.foldl (fun st i => st.setPixelColor (i + q) (g i)) st) = brightPair st :=
  foldl_proj brightPair (fun st i => st.setPixelColor (i + q) (g i)) (fun _ _ => rfl) l st


/-! ### Per-effect preservation lemmas -/

lemma StripOk_breatheInit (s : State) (h : StripOk s.strip) :
    StripOk (EffectBreatheInit s).strip := by
  unfold EffectBreatheInit
  dsimp only
  exact StripOk_show _ (StripOk_set _ 1 COLOR_RED (by omega)
    (StripOk_fill (fun _ => COLOR_BLACK) NUM_PIXELS (by decide) _ h))

lemma StripOk_rainbowInit (s : State) (h : StripOk s.strip) :
    StripOk (EffectRainbowInit s).strip := by
  unfold EffectRainbowInit
  dsimp only
  exact StripOk_show _ (StripOk_set _ 2 COLOR_RED (by omega) (StripOk_set _ 1 COLOR_RED (by omega)
    (StripOk_fill (fun _ => COLOR_BLACK) NUM_PIXELS (by decide) _ h)))

lemma StripOk_breathe (ifn : Nat → Nat) (col : Nat) (s : State) (h : StripOk s.strip) :
    StripOk (EffectBreathe ifn col s).strip := by
  unfold EffectBreathe
  dsimp only
  exact StripOk_show _
    (StripOk_fill (fun _ => col) NUM_PIXELS (by decide) _ (StripOk_setBrightness _ _ h))

lemma StripOk_rainbow (s : State) (h : StripOk s.strip) :
    StripOk (EffectRainbow s).strip := by
  unfold EffectRainbow
  dsimp only
  refine StripOk_show _ ?_
  rw [h.1]
  exact StripOk_fill _ 12 (by omega) _ h

lemma StripOk_colorWipe (col w : Nat) (s : State) (h : StripOk s.strip) :
    StripOk (EffectColorWipe col w s).strip := by
  unfold EffectColorWipe
  dsimp only
  rw [h.1]
  refine foldl_pres StripOk _ (List.range 12) ?_ _ h
  intro st i hi h'
  exact StripOk_show _ (StripOk_set _ i _ (List.mem_range.mp hi) h')

lemma StripOk_rainbowCycle (w : Nat) (s : State) (h : StripOk s.strip) :
    StripOk (EffectRainbowCycle w s).strip := by
  unfold EffectRainbowCycle
  dsimp only
  refine foldl_pres StripOk _ _ ?_ _ h
  intro st j hj hst
  refine StripOk_show _ ?_
  rw [hst.1]
  exact StripOk_fill2 (fun st i => Wheel ((i * 256 / st.numPixels + j) % 256)) 12
    (by omega) _ hst

lemma StripOk_theaterChase (c w : Nat) (s : State) (h : StripOk s.strip) :
    StripOk (EffectTheaterChase c w s).strip := by
  unfold EffectTheaterChase
  dsimp only
  refine foldl_pres StripOk _ (List.range 10) ?_ _ h
  intro st _ _ hst
  refine foldl_pres StripOk _ (List.range 3) ?_ _ hst
  intro st' q hq hst'
  dsimp only
  have hq3 : q < 3 := List.mem_range.mp hq
  have h1 : StripOk ((everyThird st'.numPixels).foldl
      (fun st i => st.setPixelColor (i + q) c) st') :=
    StripOk_chasePass (fun _ => c) q _ hq3 hst'.1 _ hst'
  have h2 := StripOk_show _ h1
  exact StripOk_chasePass (fun _ => 0) q _ hq3 h2.1 _ h2

lemma StripOk_theaterChaseRainbow (w : Nat) (s : State) (h : StripOk s.strip) :
    StripOk (EffectTheaterChaseRainbow w s).strip := by
  unfold EffectTheaterChaseRainbow
  dsimp only
  refine foldl_pres StripOk _ (List.range 256) ?_ _ h
  intro st j _ hst
  refine foldl_pres StripOk _ (List.range 3) ?_ _ hst
  intro st' q hq hst'
  dsimp only
  have hq3 : q < 3 := List.mem_range.mp hq
  have h1 : StripOk ((everyThird st'.numPixels).foldl
      (fun st i => st.setPixelColor (i + q) (Wheel ((i + j) % 255))) st') :=
    StripOk_chasePass (fun i => Wheel ((i + j) % 255)) q _ hq3 hst'.1 _ hst'
  have h2 := StripOk_show _ h1
  exact StripOk_chasePass (fun _ => 0) q _ hq3 h2.1 _ h2

lemma brightPair_breatheInit (s : State) :
    brightPair (EffectBreatheInit s).strip = brightPair s.strip := by
  unfold EffectBreatheInit
  dsimp only
  exact brightPair_fill (fun _ => COLOR_BLACK) _ _

lemma brightPair_rainbowInit (s : State) :
    brightPair (EffectRainbowInit s).strip = brightPair s.strip := by
  unfold EffectRainbowInit
  dsimp only
  exact brightPair_fill (fun _ => COLOR_BLACK) _ _

lemma brightPair_rainbow (s : State) :
    brightPair (EffectRainbow s).strip = brightPair s.strip := by
  unfold EffectRainbow
  dsimp only
  exact brightPair_fill _ _ _

lemma brightPair_colorWipe (col w : Nat) (s : State) :
    brightPair (EffectColorWipe col w s).strip = brightPair s.strip := by
  unfold EffectColorWipe
  dsimp only
  exact foldl_proj brightPair (fun st i => (st.setPixelColor i col).show')
    (fun _ _ => rfl) _ _

lemma brightPair_rainbowCycle (w : Nat) (s : State) :
    brightPair (EffectRainbowCycle w s).strip = brightPair s.strip := by
  unfold EffectRainbowCycle
  dsimp only
  refine foldl_proj brightPair _ ?_ _ _
  intro st j
  exact brightPair_fill2 (fun st i => Wheel ((i * 256 / st.numPixels + j) % 256)) _ _

lemma brightPair_theaterChase (c w : Nat) (s : State) :
    brightPair (EffectTheaterChase c w s).strip = brightPair s.strip := by
  unfold EffectTheaterChase
  dsimp only
  refine foldl_proj brightPair _ ?_ _ _
  intro st _
  refine foldl_proj brightPair _ ?_ _ _
  intro st' q
  dsimp only
  exact (brightPair_chase (fun _ => 0) q _ _).trans (brightPair_chase (fun _ => c) q _ _)

lemma brightPair_theaterChaseRainbow (w : Nat) (s : State) :
    brightPair (EffectTheaterChaseRainbow w s).strip = brightPair s.strip := by
  unfold EffectTheaterChaseRainbow
  dsimp only
  refine foldl_proj brightPair _ ?_ _ _
  intro st j
  refine foldl_proj brightPair _ ?_ _ _
  intro st' q
  dsimp only
  exact (brightPair_chase (fun _ => 0) q _ _).trans
    (brightPair_chase (fun i => Wheel ((i + j) % 255)) q _ _)

lemma brightPair_breathe (ifn : Nat → Nat) (col : Nat) (s : State) :
    brightPair (EffectBreathe ifn col s).strip
      = (ifn s.breatheCounter % 256, s.strip.brightnessWrites + 1) := by
  unfold EffectBreathe
  dsimp only
  exact brightPair_fill (fun _ => col) _ _


lemma brightPair_fst (st st' : Strip) (h : brightPair st = brightPair st') :
    st.brightness = st'.brightness := by
  have := congrArg Prod.fst h
  simpa [brightPair] using this

lemma brightPair_snd (st st' : Strip) (h : brightPair st = brightPair st') :
    st.brightnessWrites = st'.brightnessWrites := by
  have := congrArg Prod.snd h
  simpa [brightPair] using this

lemma brightPair_eq_fst (st : Strip) (x y : Nat) (h : brightPair st = (x, y)) :
    st.brightness = x := by
  have := congrArg Prod.fst h
  simpa [brightPair] using this

lemma brightPair_eq_snd (st : Strip) (x y : Nat) (h : brightPair st = (x, y)) :
    st.brightnessWrites = y := by
  have := congrArg Prod.snd h
  simpa [brightPair] using this

/-! ### Claim theorems -/

/-- Claim C2, counterexample: at wheel position 0 the code yields the packed
color (0, 255, 0), which has two channels equal to 0, refuting "exactly one
channel equal to 0" as stated (the same happens at 85, 170 and 255). -/
theorem wheel_exactly_one_zero_cex :
    Wheel 0 = Color 0 255 0 ∧ ¬ zeroChannels (Wheel 0) = 1 := by decide

set_option maxRecDepth 8000 in
/-- Claim C2 (amended): for every wheel position p in [0, 255], Wheel(p) has at
least one channel equal to 0 whose complementary two channels sum to exactly
255 (the sum needs no tolerance); away from the band boundaries 0, 85, 170 and
255 exactly one channel is 0, while at those boundaries the ramping channel is
also 0. -/
theorem wheel_channel_structure : ∀ p, p < 256 →
    (((redCh (Wheel p) = 0 ∧ greenCh (Wheel p) + blueCh (Wheel p) = 255) ∨
      (greenCh (Wheel p) = 0 ∧ redCh (Wheel p) + blueCh (Wheel p) = 255) ∨
      (blueCh (Wheel p) = 0 ∧ redCh (Wheel p) + greenCh (Wheel p) = 255)) ∧
     (p ≠ 0 → p ≠ 85 → p ≠ 170 → p ≠ 255 → zeroChannels (Wheel p) = 1)) := by
  have h1 : ∀ p, p < 256 →
      ((redCh (Wheel p) = 0 ∧ greenCh (Wheel p) + blueCh (Wheel p) = 255) ∨
       (greenCh (Wheel p) = 0 ∧ redCh (Wheel p) + blueCh (Wheel p) = 255) ∨
       (blueCh (Wheel p) = 0 ∧ redCh (Wheel p) + greenCh (Wheel p) = 255)) := by decide
  have h2 : ∀ p, p < 256 →
      (p ≠ 0 → p ≠ 85 → p ≠ 170 → p ≠ 255 → zeroChannels (Wheel p) = 1) := by decide
  intro p hp
  exact ⟨h1 p hp, h2 p hp⟩

/-- Witness for `wheel_channel_structure` at position 7. -/
theorem wheel_channel_structure_witness :
    7 < 256 ∧
    (((redCh (Wheel 7) = 0 ∧ greenCh (Wheel 7) + blueCh (Wheel 7) = 255) ∨
      (greenCh (Wheel 7) = 0 ∧ redCh (Wheel 7) + blueCh (Wheel 7) = 255) ∨
      (blueCh (Wheel 7) = 0 ∧ redCh (Wheel 7) + greenCh (Wheel 7) = 255)) ∧
     (7 ≠ 0 → 7 ≠ 85 → 7 ≠ 170 → 7 ≠ 255 → zeroChannels (Wheel 7) = 1)) :=
  ⟨by decide, wheel_channel_structure 7 (by decide)⟩

/-- Claim C1, counterexample: from the initial state (stable level high), a
poll with disagreeing samples [low, high] reports no edge, yet the recorded
stable level does NOT remain high — `g_buttonState = val` runs
unconditionally, so the claim as stated is false at this input. -/
theorem bounce_overwrites_stable_cex :
    (setup true).buttonState = true ∧
    ¬ ((tick ifn0 (setup true) false true).2.edge = false ∧
       (tick ifn0 (setup true) false true).1.buttonState = true) := by decide

/-- Claim C1 (amended): on a poll with disagreeing samples [low, high] from
stable level high, no press edge is reported, but the recorded stable level is
overwritten with the first sample and becomes low instead of staying high. -/
theorem bounce_no_edge_stable_overwritten (ifn : Nat → Nat) (s : State)
    (hb : s.buttonState = true) :
    (tick ifn s false true).2.edge = false ∧
    (tick ifn s false true).1.buttonState = false := by
  constructor
  · rw [tick_edge, hb]
    rfl
  · exact tick_buttonState ifn s false true

/-- Witness for `bounce_no_edge_stable_overwritten` at the initial state. -/
theorem bounce_no_edge_stable_overwritten_witness :
    (setup true).buttonState = true ∧
    ((tick ifn0 (setup true) false true).2.edge = false ∧
     (tick ifn0 (setup true) false true).1.buttonState = false) :=
  ⟨rfl, bounce_no_edge_stable_overwritten ifn0 (setup true) rfl⟩

/-- Claim C7: starting from stable level high, polls [high, high], [low, low],
[high, high] report exactly one press edge, on the [low, low] poll. -/
theorem debounce_sequence_one_edge (ifn : Nat → Nat) (s : State)
    (hb : s.buttonState = true) :
    (runStates ifn s [(true, true), (false, false), (true, true)]).map (fun x => x.2.edge)
      = [false, true, false] := by
  simp [runStates, tick_edge, tick_buttonState, debounceEdge, hb]

/-- Witness for `debounce_sequence_one_edge` at the initial state. -/
theorem debounce_sequence_one_edge_witness :
    (setup true).buttonState = true ∧
    (runStates ifn0 (setup true) [(true, true), (false, false), (true, true)]).map
        (fun x => x.2.edge) = [false, true, false] :=
  ⟨rfl, debounce_sequence_one_edge ifn0 (setup true) rfl⟩

/-- Claim C4: a press edge advances the current effect to the next declared
identifier, cyclically; advancing `NUM_EFFECTS` times returns to the start. -/
theorem press_advances_cyclically (ifn : Nat → Nat) (s : State)
    (hb : s.buttonState = true) (h : s.effect < NUM_EFFECTS) :
    (tick ifn s false false).1.effect = (s.effect + 1) % NUM_EFFECTS ∧
    (∀ e, e < NUM_EFFECTS → advanceEffect^[NUM_EFFECTS] e = e) := by
  constructor
  · have hE : debounceEdge s.buttonState false false = true := by rw [hb]; rfl
    have ht := (tick_spec ifn s false false h).1
    rw [ht, hE]
    simp only [if_true]
    have h2 : s.effect < 2 := h
    rcases (by omega : s.effect = 0 ∨ s.effect = 1) with h0 | h1
    · rw [h0]; decide
    · rw [h1]; decide
  · decide

/-- Witness for `press_advances_cyclically` at the initial state. -/
theorem press_advances_cyclically_witness :
    ((setup true).buttonState = true ∧ (setup true).effect < NUM_EFFECTS) ∧
    ((tick ifn0 (setup true) false false).1.effect = ((setup true).effect + 1) % NUM_EFFECTS ∧
     (∀ e, e < NUM_EFFECTS → advanceEffect^[NUM_EFFECTS] e = e)) :=
  ⟨⟨rfl, by decide⟩, press_advances_cyclically ifn0 (setup true) rfl (by decide)⟩

/-- Claim C5: when the current effect is outside the declared set, the tick
silently resets it to the first declared identifier and runs no hook. -/
theorem invalid_effect_resets (ifn : Nat → Nat) (s : State) (v v2 : Bool)
    (h : NUM_EFFECTS ≤ s.effect) :
    (tick ifn s v v2).1.effect = 0 ∧ (tick ifn s v v2).2.events = [] := by
  have hN : NUM_EFFECTS = 2 := rfl
  have h2 : 2 ≤ s.effect := by omega
  have hne0 : ¬ s.effect = 0 := by omega
  have hne1 : ¬ s.effect = 1 := by omega
  have ha2 : 2 ≤ advanceEffect s.effect := by
    unfold advanceEffect
    dsimp only
    rw [if_neg (by omega : ¬ s.effect + 1 = NUM_EFFECTS)]
    omega
  have hane0 : ¬ advanceEffect s.effect = 0 := by omega
  have hane1 : ¬ advanceEffect s.effect = 1 := by omega
  cases hE : debounceEdge s.buttonState v v2
  · by_cases hp : s.effectPrev = s.effect
    · simp [tick, hE, hp, hne0, hne1, EFFECT_BREATHE, EFFECT_RAINBOW]
    · simp [tick, hE, hp, hne0, hne1, EFFECT_BREATHE, EFFECT_RAINBOW]
  · by_cases hp : s.effectPrev = advanceEffect s.effect
    · simp [tick, hE, hp, hane0, hane1, EFFECT_BREATHE, EFFECT_RAINBOW]
    · simp [tick, hE, hp, hane0, hane1, EFFECT_BREATHE, EFFECT_RAINBOW]

/-- Witness for `invalid_effect_resets` with the out-of-range identifier 5. -/
theorem invalid_effect_resets_witness :
    NUM_EFFECTS ≤ ({ setup true with effect := 5 } : State).effect ∧
    ((tick ifn0 { setup true with effect := 5 } true true).1.effect = 0 ∧
     (tick ifn0 { setup true with effect := 5 } true true).2.events = []) :=
  ⟨by decide, invalid_effect_resets ifn0 { setup true with effect := 5 } true true (by decide)⟩

/-- Claim C3: along any run of ticks from a state whose effect is declared
(including the initial state, whose `g_effectPrev = NUM_EFFECTS` forces the
implicit first entry), every tick emits exactly one step event for its current
effect, preceded by that effect's init event exactly when the effect differs
from the previous tick's effect — so the init hook runs exactly once per
contiguous run of ticks in one effect, on its entry tick, before that tick's
step. -/
theorem init_once_per_run (ifn : Nat → Nat) (s : State) (h : s.effect < NUM_EFFECTS) :
    ∀ l : List (Bool × Bool), eventsOk s.effectPrev (runStates ifn s l) = true := by
  intro l
  induction l generalizing s with
  | nil => rfl
  | cons v rest ih =>
    obtain ⟨he, hp, hev⟩ := tick_spec ifn s v.1 v.2 h
    have hlt : (tick ifn s v.1 v.2).1.effect < NUM_EFFECTS := by
      rw [he]
      split
      · exact advanceEffect_lt _ h
      · exact h
    have tail := ih (tick ifn s v.1 v.2).1 hlt
    rw [hp] at tail
    simp only [runStates, eventsOk, Bool.and_eq_true, decide_eq_true_eq]
    constructor
    · rw [he, hev]
    · rw [he]
      exact tail

/-- Witness for `init_once_per_run`: a five-tick run with two presses from the
initial state. -/
theorem init_once_per_run_witness :
    (setup true).effect < NUM_EFFECTS ∧
    eventsOk (setup true).effectPrev (runStates ifn0 (setup true)
      [(true, true), (false, false), (true, true), (false, false), (true, true)]) = true :=
  ⟨by decide, init_once_per_run ifn0 (setup true) (by decide)
    [(true, true), (false, false), (true, true), (false, false), (true, true)]⟩

/-- Claim C6: one Rainbow step writes Wheel((i + hue) mod 256) to every pixel
index i below the pixel count, flushes exactly once, and increments the 8-bit
hue counter modulo 256. -/
theorem rainbow_step_spec (s : State) :
    (∀ i, i < s.strip.numPixels →
        (EffectRainbow s).strip.pixels i = Wheel ((i + s.rainbowCounter) % 256)) ∧
    (EffectRainbow s).strip.flushes = s.strip.flushes + 1 ∧
    (EffectRainbow s).rainbowCounter = (s.rainbowCounter + 1) % 256 := by
  refine ⟨?_, ?_, by unfold EffectRainbow; rfl⟩
  · intro i hi
    unfold EffectRainbow
    dsimp only
    rw [show'_pixels,
      foldl_setPixel_pixels (fun i => Wheel ((i + s.rainbowCounter) % 256))
        s.strip.numPixels s.strip]
    simp only [hi, and_self, if_true]
    exact Nat.mod_eq_of_lt (Wheel_lt _)
  · unfold EffectRainbow
    dsimp only
    rw [show'_flushes,
      foldl_proj Strip.flushes
        (fun st i => st.setPixelColor i (Wheel ((i + s.rainbowCounter) % 256)))
        (fun _ _ => rfl) _ _]

/-- Witness for `rainbow_step_spec` at the initial state, pixel 0. -/
theorem rainbow_step_spec_witness :
    0 < (setup true).strip.numPixels ∧
    (EffectRainbow (setup true)).strip.pixels 0
      = Wheel ((0 + (setup true).rainbowCounter) % 256) :=
  ⟨by decide, (rainbow_step_spec (setup true)).1 0 (by decide)⟩

/-- Claim C9: one invocation of the blocking RainbowCycle effect flushes
exactly 256*5 = 1280 times. -/
theorem rainbowCycle_flush_count (w : Nat) (s : State) (h : s.strip.numPixels = 12) :
    (EffectRainbowCycle w s).strip.flushes = s.strip.flushes + 256 * 5 := by
  unfold EffectRainbowCycle
  dsimp only
  have hf : ∀ (st : Strip) (j : Nat),
      (((List.range st.numPixels).foldl
        (fun st i => st.setPixelColor i (Wheel ((i * 256 / st.numPixels + j) % 256)))
        st).show').flushes = st.flushes + 1 := by
    intro st j
    rw [show'_flushes,
      foldl_proj Strip.flushes
        (fun st i => st.setPixelColor i (Wheel ((i * 256 / st.numPixels + j) % 256)))
        (fun _ _ => rfl) _ _]
  rw [foldl_flushes_count _ hf (List.range (256 * 5)) s.strip, List.length_range]

/-- Witness for `rainbowCycle_flush_count` at the initial state. -/
theorem rainbowCycle_flush_count_witness :
    (setup true).strip.numPixels = 12 ∧
    (EffectRainbowCycle 20 (setup true)).strip.flushes
      = (setup true).strip.flushes + 256 * 5 :=
  ⟨by decide, rainbowCycle_flush_count 20 (setup true) (by decide)⟩

/-- Claim C10: a Rainbow step leaves the brightness scalar (and its write
count) unchanged, touching only the pixel buffer, the flush count and its own
hue counter; among all effect hooks only the Breathe step writes the
brightness scalar (storing the intensity of the current phase), and one-time
setup performs the only other brightness write. -/
theorem brightness_ownership (ifn : Nat → Nat) (col c w : Nat) (b : Bool) (s : State) :
    (EffectRainbow s).strip.brightness = s.strip.brightness ∧
    (EffectRainbow s).strip.brightnessWrites = s.strip.brightnessWrites ∧
    (EffectRainbow s).breatheCounter = s.breatheCounter ∧
    (EffectRainbow s).effect = s.effect ∧
    (EffectRainbow s).effectPrev = s.effectPrev ∧
    (EffectRainbow s).buttonState = s.buttonState ∧
    (EffectRainbowInit s).strip.brightness = s.strip.brightness ∧
    (EffectRainbowInit s).strip.brightnessWrites = s.strip.brightnessWrites ∧
    (EffectBreatheInit s).strip.brightness = s.strip.brightness ∧
    (EffectBreatheInit s).strip.brightnessWrites = s.strip.brightnessWrites ∧
    (EffectColorWipe col w s).strip.brightness = s.strip.brightness ∧
    (EffectColorWipe col w s).strip.brightnessWrites = s.strip.brightnessWrites ∧
    (EffectRainbowCycle w s).strip.brightness = s.strip.brightness ∧
    (EffectRainbowCycle w s).strip.brightnessWrites = s.strip.brightnessWrites ∧
    (EffectTheaterChase c w s).strip.brightness = s.strip.brightness ∧
    (EffectTheaterChase c w s).strip.brightnessWrites = s.strip.brightnessWrites ∧
    (EffectTheaterChaseRainbow w s).strip.brightness = s.strip.brightness ∧
    (EffectTheaterChaseRainbow w s).strip.brightnessWrites = s.strip.brightnessWrites ∧
    (EffectBreathe ifn col s).strip.brightness = ifn s.breatheCounter % 256 ∧
    (EffectBreathe ifn col s).strip.brightnessWrites = s.strip.brightnessWrites + 1 ∧
    (setup b).strip.brightnessWrites = stripBegin.brightnessWrites + 1 :=
  ⟨brightPair_fst _ _ (brightPair_rainbow s), brightPair_snd _ _ (brightPair_rainbow s),
   by unfold EffectRainbow; rfl, EffectRainbow_effect s, EffectRainbow_effectPrev s,
   EffectRainbow_buttonState s,
   brightPair_fst _ _ (brightPair_rainbowInit s), brightPair_snd _ _ (brightPair_rainbowInit s),
   brightPair_fst _ _ (brightPair_breatheInit s), brightPair_snd _ _ (brightPair_breatheInit s),
   brightPair_fst _ _ (brightPair_colorWipe col w s),
   brightPair_snd _ _ (brightPair_colorWipe col w s),
   brightPair_fst _ _ (brightPair_rainbowCycle w s),
   brightPair_snd _ _ (brightPair_rainbowCycle w s),
   brightPair_fst _ _ (brightPair_theaterChase c w s),
   brightPair_snd _ _ (brightPair_theaterChase c w s),
   brightPair_fst _ _ (brightPair_theaterChaseRainbow w s),
   brightPair_snd _ _ (brightPair_theaterChaseRainbow w s),
   brightPair_eq_fst _ _ _ (brightPair_breathe ifn col s),
   brightPair_eq_snd _ _ _ (brightPair_breathe ifn col s),
   rfl⟩

/-- Claim C8: with the reference 12-pixel strip, every index any effect (or
init hook) passes to the pixel sink is strictly below 12. -/
theorem writes_in_range (ifn : Nat → Nat) (col c w : Nat) (s : State)
    (h12 : s.strip.numPixels = 12) (hw : writesBounded 12 s.strip) :
    writesBounded 12 (EffectBreathe ifn col s).strip ∧
    writesBounded 12 (EffectBreatheInit s).strip ∧
    writesBounded 12 (EffectColorWipe col w s).strip ∧
    writesBounded 12 (EffectRainbow s).strip ∧
    writesBounded 12 (EffectRainbowInit s).strip ∧
    writesBounded 12 (EffectRainbowCycle w s).strip ∧
    writesBounded 12 (EffectTheaterChase c w s).strip ∧
    writesBounded 12 (EffectTheaterChaseRainbow w s).strip :=
  have hOk : StripOk s.strip := ⟨h12, hw⟩
  ⟨(StripOk_breathe ifn col s hOk).2, (StripOk_breatheInit s hOk).2,
   (StripOk_colorWipe col w s hOk).2, (StripOk_rainbow s hOk).2,
   (StripOk_rainbowInit s hOk).2, (StripOk_rainbowCycle w s hOk).2,
   (StripOk_theaterChase c w s hOk).2, (StripOk_theaterChaseRainbow w s hOk).2⟩

/-- Witness for `writes_in_range` at the initial state. -/
theorem writes_in_range_witness :
    ((setup true).strip.numPixels = 12 ∧ writesBounded 12 (setup true).strip) ∧
    (writesBounded 12 (EffectBreathe ifn0 COLOR_RED (setup true)).strip ∧
     writesBounded 12 (EffectBreatheInit (setup true)).strip ∧
     writesBounded 12 (EffectColorWipe COLOR_RED 50 (setup true)).strip ∧
     writesBounded 12 (EffectRainbow (setup true)).strip ∧
     writesBounded 12 (EffectRainbowInit (setup true)).strip ∧
     writesBounded 12 (EffectRainbowCycle 50 (setup true)).strip ∧
     writesBounded 12 (EffectTheaterChase COLOR_RED 50 (setup true)).strip ∧
     writesBounded 12 (EffectTheaterChaseRainbow 50 (setup true)).strip) :=
  ⟨⟨by decide, by decide⟩,
   writes_in_range ifn0 COLOR_RED COLOR_RED 50 (setup true) (by decide) (by decide)⟩


end NeoPixel
